import Mathlib

/-!
Shallow embedding of the Helixar Blueprint Insight client code:
the timeline time-to-pixel mapper, zoom controls and drag-scroll handlers
(`src/components/Timeline.tsx`), the playback controller
(`src/components/BlueprintTerminal.tsx`), the dashboard aggregation
(`src/components/Dashboard.tsx`), the properties-panel renderer
(`src/components/PropertiesPanel.tsx`), and the WebSocket broadcast relay
(`src/pages/api/websocket.ts`), together with theorems settling the
specification claims about them.

Numbers are modelled as exact rationals; where JavaScript special values
(NaN, Infinity) matter, a dedicated `JSNum` type with IEEE-style division
and multiplication is used.
-/

namespace Helixar

/-- Pixels per second at base zoom level: `PIXELS_PER_SECOND_BASE = 50`
in `Timeline.tsx`. -/
def PIXELS_PER_SECOND_BASE : ℚ := 50

/-- Total pixel width of the timeline:
`totalWidth = duration * PIXELS_PER_SECOND_BASE * zoomLevel`
(`Timeline.tsx`, line 124). -/
def totalWidth (duration zoomLevel : ℚ) : ℚ :=
  duration * PIXELS_PER_SECOND_BASE * zoomLevel

/-- Exact-rational reading of the time-to-pixel direction of the mapper:
`left = (element.start / duration) * totalWidth` in `getElementStyle`
(`Timeline.tsx`, lines 204-215). -/
def toPixels (t duration zoomLevel : ℚ) : ℚ :=
  t / duration * totalWidth duration zoomLevel

/-- Exact-rational reading of the pixel-to-time direction of the mapper:
`newTime = (clickX / totalWidth) * duration` in `handleTimelineClick`
(`Timeline.tsx`, lines 189-196). -/
def toTime (clickX duration zoomLevel : ℚ) : ℚ :=
  clickX / totalWidth duration zoomLevel * duration

/-- Model of a JavaScript number as produced by the timeline arithmetic:
a finite rational, `NaN`, or a signed infinity.  Negative zero is not
modelled: every zero reached by the embedded expressions is `+0`
(in particular `totalWidth = duration * 50 * zoomLevel` is `+0` whenever
it is zero with nonnegative inputs). -/
inductive JSNum
  | num : ℚ → JSNum
  | nan : JSNum
  | inf : JSNum
  | ninf : JSNum
deriving DecidableEq, Repr

/-- JavaScript division on `JSNum`, following IEEE-754 semantics on the
modelled values: division of a nonzero finite number by zero gives a
signed infinity, `0 / 0` gives `NaN`, `NaN` propagates. -/
def jsDiv : JSNum → JSNum → JSNum
  | .nan, _ => .nan
  | .num _, .nan => .nan
  | .inf, .nan => .nan
  | .ninf, .nan => .nan
  | .num a, .num b =>
      if b = 0 then
        if a = 0 then .nan else if 0 < a then .inf else .ninf
      else .num (a / b)
  | .num _, .inf => .num 0
  | .num _, .ninf => .num 0
  | .inf, .num b => if 0 ≤ b then .inf else .ninf
  | .ninf, .num b => if 0 ≤ b then .ninf else .inf
  | .inf, .inf => .nan
  | .inf, .ninf => .nan
  | .ninf, .inf => .nan
  | .ninf, .ninf => .nan

/-- JavaScript multiplication on `JSNum`, following IEEE-754 semantics on
the modelled values: `Infinity * 0` gives `NaN`, `NaN` propagates. -/
def jsMul : JSNum → JSNum → JSNum
  | .nan, _ => .nan
  | .num _, .nan => .nan
  | .inf, .nan => .nan
  | .ninf, .nan => .nan
  | .num a, .num b => .num (a * b)
  | .num a, .inf => if a = 0 then .nan else if 0 < a then .inf else .ninf
  | .num a, .ninf => if a = 0 then .nan else if 0 < a then .ninf else .inf
  | .inf, .num b => if b = 0 then .nan else if 0 < b then .inf else .ninf
  | .ninf, .num b => if b = 0 then .nan else if 0 < b then .ninf else .inf
  | .inf, .inf => .inf
  | .inf, .ninf => .ninf
  | .ninf, .inf => .ninf
  | .ninf, .ninf => .inf

/-- JavaScript-number reading of `handleTimelineClick`
(`Timeline.tsx`, lines 189-196): when not dragging, the click position is
mapped through `newTime = (clickX / totalWidth) * duration` and passed to
`onScrub`; when dragging the click is ignored.  The result type carries no
error channel: the source has no rejection path for any input. -/
def handleTimelineClick (isDragging : Bool) (clickX duration zoomLevel : ℚ) :
    Option JSNum :=
  if isDragging then none
  else some (jsMul (jsDiv (.num clickX) (.num (totalWidth duration zoomLevel)))
    (.num duration))

/-- JavaScript-number reading of the `left` offset computed by
`getElementStyle` (`Timeline.tsx`, lines 204-215):
`left = (element.start / duration) * totalWidth`. -/
def elementLeftJS (start duration zoomLevel : ℚ) : JSNum :=
  jsMul (jsDiv (.num start) (.num duration)) (.num (totalWidth duration zoomLevel))

/-- On a nonzero finite divisor the `JSNum` arithmetic agrees with the
exact rational arithmetic, so `toTime` is the finite reading of the click
handler. -/
theorem jsMul_jsDiv_num (x w d : ℚ) (hw : w ≠ 0) :
    jsMul (jsDiv (.num x) (.num w)) (.num d) = .num (x / w * d) := by
  simp [jsDiv, jsMul, hw]

/-- C1: for every duration > 0, zoom > 0 and time t in the interval from 0
to duration, mapping t to a pixel offset via
pixels = (t / duration) * totalWidth (with
totalWidth = duration * basePixelsPerSecond * zoom) and mapping that pixel
offset back via time = (pixels / totalWidth) * duration returns t, exactly
over the rationals. -/
theorem toTime_toPixels_roundtrip (t duration zoomLevel : ℚ)
    (hd : 0 < duration) (hz : 0 < zoomLevel) (ht0 : 0 ≤ t) (ht : t ≤ duration) :
    toTime (toPixels t duration zoomLevel) duration zoomLevel = t := by
  have hd0 : duration ≠ 0 := ne_of_gt hd
  have hz0 : zoomLevel ≠ 0 := ne_of_gt hz
  unfold toTime toPixels totalWidth PIXELS_PER_SECOND_BASE
  field_simp
  ring

/-- Witness for C1 at the example figures given in the spec: duration 154,
zoom 1, t = 77 (pixel offset 3850 on total width 7700). -/
theorem toTime_toPixels_roundtrip_witness :
    totalWidth 154 1 = 7700 ∧ toPixels 77 154 1 = 3850 ∧
      toTime (toPixels 77 154 1) 154 1 = 77 :=
  ⟨by norm_num [totalWidth, PIXELS_PER_SECOND_BASE],
   by norm_num [toPixels, totalWidth, PIXELS_PER_SECOND_BASE],
   toTime_toPixels_roundtrip 77 154 1 (by norm_num) (by norm_num)
     (by norm_num) (by norm_num)⟩

/-- C2: evaluation of the click-to-seek handler and the time-to-pixel
direction at duration = 0.  The code does not reject zero duration with an
InvalidDuration signal: `handleTimelineClick` computes
`(clickX / 0) * 0 = NaN` and passes it to `onScrub`, and `getElementStyle`
computes `(start / 0) * 0 = NaN` for the element offset — both silently
produce `NaN`, and the handler type has no error channel at all. -/
theorem timelineClick_zero_duration_nan :
    handleTimelineClick false 100 0 1 = some .nan ∧
      handleTimelineClick false 0 0 1 = some .nan ∧
      elementLeftJS 5 0 1 = .nan := by
  refine ⟨?_, ?_, ?_⟩ <;>
    simp [handleTimelineClick, elementLeftJS, totalWidth, jsDiv, jsMul]

/-- Zoom-out button handler (`Timeline.tsx`, zoom controls):
`onZoomChange(Math.max(0.5, zoomLevel - 0.5))`. -/
def zoomOutStep (zoomLevel : ℚ) : ℚ := max (1 / 2) (zoomLevel - 1 / 2)

/-- Zoom-in button handler (`Timeline.tsx`, zoom controls):
`onZoomChange(Math.min(5, zoomLevel + 0.5))`. -/
def zoomInStep (zoomLevel : ℚ) : ℚ := min 5 (zoomLevel + 1 / 2)

/-- Slider handler `handleZoomChange` (`Timeline.tsx`): receives the
slider value array and forwards its first entry,
`onZoomChange(value[0])`; the slider component itself constrains the
emitted value to its configured range 0.5 to 5. -/
def handleZoomChange (value : List ℚ) : Option ℚ := value.head?

/-- Numeric-entry handler on the zoom input (`Timeline.tsx`):
`onChange = (e) => onZoomChange(parseFloat(e.target.value))`.  The parsed
value is forwarded without any clamp; the min and max attributes on the
input element do not constrain what onChange receives. -/
def numericZoomEntry (parsed : ℚ) : ℚ := parsed

/-- C4 evidence: the step buttons clamp at the range boundaries, but the
direct numeric-entry path forwards the parsed value unclamped, so
entering 7 sets the zoom factor to 7, outside the interval from 0.5
to 5.0 — the claimed invariant fails on that input path. -/
theorem numericZoomEntry_escapes_range :
    zoomOutStep (1 / 2) = 1 / 2 ∧ zoomInStep 5 = 5 ∧
      numericZoomEntry 7 = 7 ∧ ¬ numericZoomEntry 7 ≤ 5 := by
  refine ⟨?_, ?_, rfl, ?_⟩ <;> norm_num [zoomOutStep, zoomInStep, numericZoomEntry]

/-- Playback state of `BlueprintTerminal`: the React state `currentTime`
and `isPlaying`, together with the `currentTime` property of the bound
media element (the assignment target of `videoRef.current.currentTime`). -/
structure PlayerState where
  currentTime : ℚ
  isPlaying : Bool
  videoCurrentTime : ℚ
deriving DecidableEq, Repr

/-- Embedding of `seekTo` (`BlueprintTerminal.tsx`, lines 143-148): assigns
the raw argument to the position of the media element and synchronously to the
`currentTime` state, with no clamping of its own. -/
def seekTo (time : ℚ) (s : PlayerState) : PlayerState :=
  { s with videoCurrentTime := time, currentTime := time }

/-- Duration of the mock video in `BlueprintTerminal.tsx`
(`mockVideo.duration = 154`), read by the skip handlers. -/
def mockVideoDuration : ℚ := 154

/-- Embedding of `skipForward` (`BlueprintTerminal.tsx`):
`seekTo(Math.min(currentTime + 10, mockVideo.duration))`. -/
def skipForward (s : PlayerState) : PlayerState :=
  seekTo (min (s.currentTime + 10) mockVideoDuration) s

/-- Embedding of `skipBackward` (`BlueprintTerminal.tsx`):
`seekTo(Math.max(currentTime - 10, 0))`. -/
def skipBackward (s : PlayerState) : PlayerState :=
  seekTo (max (s.currentTime - 10) 0) s

/-- C5 counterexample: `seekTo` does not clamp.  Seeking to 200 with the
video duration fixed at 154 sets `currentTime` (and the position of the
media element) to 200, not to the clamped value 154; seeking to -5 likewise
yields -5 rather than 0. -/
theorem seekTo_does_not_clamp :
    (seekTo 200 ⟨150, false, 150⟩).currentTime = 200 ∧
      (seekTo 200 ⟨150, false, 150⟩).videoCurrentTime = 200 ∧
      ¬ (seekTo 200 ⟨150, false, 150⟩).currentTime ≤ mockVideoDuration ∧
      (seekTo (-5) ⟨150, false, 150⟩).currentTime = -5 := by
  refine ⟨rfl, rfl, ?_, rfl⟩
  norm_num [seekTo, mockVideoDuration]

/-- C5 amended: for every input t, `seekTo t` sets the position of the
media element to the raw t and synchronously (optimistically) updates
`currentTime` to the same raw t, leaving `isPlaying` unchanged; clamping
into the interval from 0 to duration is performed by the skip handlers
before they call `seekTo`, not by `seekTo` itself. -/
theorem seekTo_sets_raw_time (t : ℚ) (s : PlayerState) :
    (seekTo t s).currentTime = t ∧ (seekTo t s).videoCurrentTime = t ∧
      (seekTo t s).isPlaying = s.isPlaying ∧
      skipForward s = seekTo (min (s.currentTime + 10) mockVideoDuration) s ∧
      skipBackward s = seekTo (max (s.currentTime - 10) 0) s :=
  ⟨rfl, rfl, rfl, rfl, rfl⟩

/-- C6: from any state with `currentTime` between 0 and the video
duration, `skipForward` seeks to currentTime + 10 clamped into the
interval from 0 to the duration, and `skipBackward` seeks to
currentTime - 10 clamped into the same interval; in particular the
backward skip never produces a negative time. -/
theorem skip_clamps (s : PlayerState)
    (h0 : 0 ≤ s.currentTime) (h1 : s.currentTime ≤ mockVideoDuration) :
    (skipForward s).currentTime =
        max 0 (min (s.currentTime + 10) mockVideoDuration) ∧
      (skipBackward s).currentTime =
        max 0 (min (s.currentTime - 10) mockVideoDuration) ∧
      0 ≤ (skipBackward s).currentTime := by
  have hD : (0 : ℚ) ≤ mockVideoDuration := le_trans h0 h1
  refine ⟨?_, ?_, ?_⟩
  · show min (s.currentTime + 10) mockVideoDuration =
      max 0 (min (s.currentTime + 10) mockVideoDuration)
    exact (max_eq_right (le_min (by linarith) hD)).symm
  · show max (s.currentTime - 10) 0 =
      max 0 (min (s.currentTime - 10) mockVideoDuration)
    rw [min_eq_left (by linarith), max_comm]
  · exact le_max_right _ _

/-- Witness for C6 at the example given in the spec: skipping forward from
currentTime 150 with duration 154 yields 154, not 160, and skipping
backward from 5 yields 0, not -5. -/
theorem skip_clamps_witness :
    (skipForward ⟨150, false, 150⟩).currentTime = 154 ∧
      (skipBackward ⟨5, false, 5⟩).currentTime = 0 :=
  ⟨((skip_clamps ⟨150, false, 150⟩ (by norm_num)
      (by norm_num [mockVideoDuration])).1).trans
      (by norm_num [mockVideoDuration]),
   ((skip_clamps ⟨5, false, 5⟩ (by norm_num)
      (by norm_num [mockVideoDuration])).2.1).trans
      (by norm_num [mockVideoDuration])⟩

/-- Drag state of the timeline (`Timeline.tsx`): the `isDragging`,
`dragStartX` and `startScrollX` React state variables. -/
structure DragState where
  isDragging : Bool
  dragStartX : ℚ
  startScrollX : ℚ
deriving DecidableEq, Repr

/-- Embedding of `handleMouseDown` (`Timeline.tsx`): records the pointer
anchor position and the scroll offset at drag start. -/
def handleMouseDown (clientX scrollLeft : ℚ) : DragState :=
  ⟨true, clientX, scrollLeft⟩

/-- Embedding of `handleMouseMove` (`Timeline.tsx`, lines 161-167),
returning the scroll offset after the event: when dragging,
`deltaX = clientX - dragStartX` and the scroll offset becomes
`startScrollX - deltaX`; otherwise the scroll offset is unchanged. -/
def handleMouseMove (st : DragState) (clientX scrollLeft : ℚ) : ℚ :=
  if st.isDragging then st.startScrollX - (clientX - st.dragStartX)
  else scrollLeft

/-- C7: during a drag started at pointer position startX with scroll
offset scroll0, every pointer-move to clientX sets the scroll offset to
scroll0 minus the pointer delta (clientX - startX) — a 1:1 negated
mapping; in particular a drag starting at scroll offset 100 with pointer
delta -30 yields scroll offset 130. -/
theorem handleMouseMove_negated_delta (startX scroll0 clientX scroll : ℚ) :
    handleMouseMove (handleMouseDown startX scroll0) clientX scroll =
        scroll0 - (clientX - startX) ∧
      handleMouseMove (handleMouseDown 0 100) (-30) scroll = 130 := by
  constructor
  · simp [handleMouseMove, handleMouseDown]
  · norm_num [handleMouseMove, handleMouseDown]

/-- Status of a blueprint record (`Dashboard.tsx`, `Blueprint` interface). -/
inductive BlueprintStatus
  | completed
  | processing
  | failed
deriving DecidableEq, Repr

/-- A blueprint record as fetched by the dashboard
(`Dashboard.tsx`, `Blueprint` interface). -/
structure Blueprint where
  id : String
  title : String
  thumbnail : String
  duration : String
  status : BlueprintStatus
  clarityScore : ℚ
  createdAt : String
deriving DecidableEq, Repr

/-- JavaScript `Math.round`: rounds half toward positive infinity. -/
def jsRound (q : ℚ) : ℤ := ⌊q + 1 / 2⌋

/-- Embedding of `completedBlueprints`
(`Dashboard.tsx`, lines 92-98): `filter` keeping the records whose status equals completed. -/
def completedBlueprints (bs : List Blueprint) : List Blueprint :=
  bs.filter (fun b => b.status == .completed)

/-- Embedding of `averageClarityScore` (`Dashboard.tsx`, lines 92-98):
when at least one completed record exists,
`Math.round(completed.reduce((acc, b) => acc + b.clarityScore, 0) / completed.length)`,
and 0 otherwise. -/
def averageClarityScore (bs : List Blueprint) : ℤ :=
  let completed := completedBlueprints bs
  if 0 < completed.length then
    jsRound ((completed.foldl (fun acc b => acc + b.clarityScore) 0) /
      completed.length)
  else 0

/-- Summary statistics rendered by the dashboard stat cards
(`Dashboard.tsx`, lines 107-132). -/
structure DashboardStats where
  total : ℕ
  processingCount : ℕ
  avgClarity : ℤ
deriving DecidableEq, Repr

/-- Embedding of the dashboard aggregation (`Dashboard.tsx`):
`validBlueprints.length`, the length of the filter keeping status processing,
and `averageClarityScore`. -/
def dashboardStats (bs : List Blueprint) : DashboardStats :=
  { total := bs.length
    processingCount := (bs.filter (fun b => b.status == .processing)).length
    avgClarity := averageClarityScore bs }

/-- Helper: a blueprint record with only the fields the aggregation reads. -/
def mkRecord (st : BlueprintStatus) (score : ℚ) : Blueprint :=
  ⟨"", "", "", "", st, score, ""⟩

/-- C3: the dashboard aggregation counts all records in `total`, counts
the records with status processing in `processingCount`, and computes
`avgClarity` only from records with status completed (filtering the input
to its completed records does not change the average); it tolerates the
empty collection, the average of two completed records with scores 80 and
60 is 70, and a processing record is excluded from the average. -/
theorem dashboardStats_spec (bs : List Blueprint) :
    (dashboardStats bs).total = bs.length ∧
      (dashboardStats bs).processingCount =
        bs.countP (fun b => b.status == .processing) ∧
      averageClarityScore bs = averageClarityScore (completedBlueprints bs) ∧
      dashboardStats [] = ⟨0, 0, 0⟩ ∧
      averageClarityScore
        [mkRecord .completed 80, mkRecord .completed 60] = 70 ∧
      averageClarityScore
        [mkRecord .completed 80, mkRecord .processing 100,
          mkRecord .completed 60] = 70 := by
  refine ⟨rfl, ?_, ?_, rfl, ?_, ?_⟩
  · simp [dashboardStats, List.countP_eq_length_filter]
  · unfold averageClarityScore
    rw [show completedBlueprints (completedBlueprints bs) =
          completedBlueprints bs from ?_]
    unfold completedBlueprints
    rw [List.filter_filter]
    simp
  · simp [averageClarityScore, completedBlueprints, mkRecord, jsRound,
      List.filter_cons, beq_iff_eq]
    norm_num
  · simp [averageClarityScore, completedBlueprints, mkRecord, jsRound,
      List.filter_cons, beq_iff_eq]
    norm_num

/-- A WebSocket connection held in `wss.clients` (`websocket.ts`): its
identity and whether its readyState is OPEN. -/
structure WSClient where
  id : ℕ
  readyStateOpen : Bool
deriving DecidableEq, Repr

/-- Embedding of the message handler of the relay
(`websocket.ts`, lines 30-36): for each client in `wss.clients`, the
message is sent exactly when the client is not the sender and its
readyState is OPEN; the result lists the (recipient, payload) sends in
iteration order, the payload being the message itself, unparsed. -/
def broadcast (clients : List WSClient) (sender : WSClient)
    (message : String) : List (WSClient × String) :=
  clients.filterMap (fun client =>
    if client ≠ sender ∧ client.readyStateOpen then some (client, message)
    else none)

/-- C8: every currently-open connection other than the sender receives
the relayed message verbatim, and every send produced by the handler goes
to a non-sender with the unmodified message — the sender never receives
its own message. -/
theorem broadcast_excludes_sender (clients : List WSClient)
    (sender : WSClient) (message : String) :
    (∀ c, c ∈ clients → c ≠ sender → c.readyStateOpen = true →
        (c, message) ∈ broadcast clients sender message) ∧
      (∀ p, p ∈ broadcast clients sender message →
        p.1 ≠ sender ∧ p.2 = message) := by
  constructor
  · intro c hc hne hopen
    unfold broadcast
    rw [List.mem_filterMap]
    exact ⟨c, hc, if_pos ⟨hne, hopen⟩⟩
  · intro p hp
    unfold broadcast at hp
    rw [List.mem_filterMap] at hp
    obtain ⟨c, _, hsend⟩ := hp
    by_cases h : c ≠ sender ∧ c.readyStateOpen
    · rw [if_pos h] at hsend
      cases hsend
      exact ⟨h.1, rfl⟩
    · rw [if_neg h] at hsend
      cases hsend

/-- Witness for C8 with three open connections A, B, C: a message sent by
A is received by B and by C, and is not received by A. -/
theorem broadcast_excludes_sender_witness :
    (⟨1, true⟩, "hello") ∈ broadcast [⟨0, true⟩, ⟨1, true⟩, ⟨2, true⟩]
        ⟨0, true⟩ "hello" ∧
      (⟨2, true⟩, "hello") ∈ broadcast [⟨0, true⟩, ⟨1, true⟩, ⟨2, true⟩]
        ⟨0, true⟩ "hello" ∧
      ¬ (⟨0, true⟩, "hello") ∈ broadcast [⟨0, true⟩, ⟨1, true⟩, ⟨2, true⟩]
        ⟨0, true⟩ "hello" :=
  ⟨(broadcast_excludes_sender [⟨0, true⟩, ⟨1, true⟩, ⟨2, true⟩] ⟨0, true⟩
      "hello").1 ⟨1, true⟩ (by simp) (by decide) rfl,
   (broadcast_excludes_sender [⟨0, true⟩, ⟨1, true⟩, ⟨2, true⟩] ⟨0, true⟩
      "hello").1 ⟨2, true⟩ (by simp) (by decide) rfl,
   fun h => ((broadcast_excludes_sender [⟨0, true⟩, ⟨1, true⟩, ⟨2, true⟩]
      ⟨0, true⟩ "hello").2 (⟨0, true⟩, "hello") h).1 rfl⟩

/-- Category of a timeline element (`type` in the `SelectedElement`
interface shared by `Timeline.tsx`, `BlueprintTerminal.tsx` and
`PropertiesPanel.tsx`). -/
inductive ElementType
  | narrative
  | visual
  | audio
  | clarity
deriving DecidableEq, Repr

/-- The fields of `selectedElement.data` that `PropertiesPanel.tsx` reads;
each is optional since `data` is untyped in the source. -/
structure ElementData where
  text : Option String
  score : Option ℚ
  scene : Option String
  description : Option String
  title : Option String
  volume : Option ℚ
deriving DecidableEq, Repr

/-- The `SelectedElement` record: a category or none, and optional id,
time bounds and auxiliary data. -/
structure SelectedElement where
  type : Option ElementType
  id : Option String
  timeStart : Option ℚ
  timeEnd : Option ℚ
  data : Option ElementData
deriving DecidableEq, Repr

/-- Truncation toward zero, as performed by the JavaScript remainder
operator on the quotient. -/
def ratTrunc (q : ℚ) : ℤ := if 0 ≤ q then ⌊q⌋ else -⌊-q⌋

/-- JavaScript remainder `a % b` for finite operands with b nonzero: the
sign follows the dividend. -/
def jsRem (a b : ℚ) : ℚ := a - b * (ratTrunc (a / b) : ℚ)

/-- JavaScript padStart of the rendered number to two characters with a zero: prefix a
zero when the string is shorter than two characters. -/
def padTwo (s : String) : String := if s.length < 2 then "0" ++ s else s

/-- Embedding of `formatTime` (`PropertiesPanel.tsx`, lines 52-56, also in
`BlueprintTerminal.tsx`): minutes are `Math.floor(seconds / 60)`, seconds
are `Math.floor(seconds % 60)` padded to two characters. -/
def formatTime (seconds : ℚ) : String :=
  toString ⌊seconds / 60⌋ ++ ":" ++ padTwo (toString ⌊jsRem seconds 60⌋)

/-- A rendered field value in the properties panel: a raw string, a raw
number, a number shown as a percentage, the literal fallback text N/A, or
nothing (a JSX interpolation of undefined renders empty). -/
inductive FieldVal
  | str : String → FieldVal
  | num : ℚ → FieldVal
  | percent : ℚ → FieldVal
  | na : FieldVal
  | blank : FieldVal
deriving DecidableEq, Repr

/-- Rendering of a plain optional string interpolation such as
`selectedElement.data?.text`: undefined renders nothing. -/
def rawStrField (o : Option String) : FieldVal :=
  match o with
  | none => .blank
  | some s => .str s

/-- Rendering of a falsy-or fallback on a string, such as
`description` with a falsy-or fallback to N/A: undefined and the empty
string both fall back. -/
def strFalsyOrNA (o : Option String) : FieldVal :=
  match o with
  | none => .na
  | some s => if s = "" then .na else .str s

/-- Rendering of a falsy-or fallback on a number, such as
`score` with a falsy-or fallback to N/A: undefined and the number 0 both
fall back. -/
def numFalsyOrNA (o : Option ℚ) : FieldVal :=
  match o with
  | none => .na
  | some q => if q = 0 then .na else .num q

/-- Rendering of the volume field
(a strict not-undefined test on `selectedElement.data?.volume`, rendering
volume times 100 as a percentage): an explicit undefined check, so the number 0 is rendered as a percentage
rather than falling back. -/
def volumeFieldVal (o : Option ℚ) : FieldVal :=
  match o with
  | none => .na
  | some v => .percent (v * 100)

/-- The category-specific section of the panel
(`elementSpecificData` in `PropertiesPanel.tsx`, lines 82-118). -/
inductive SpecificView
  | narrativeBeat (text score : FieldVal)
  | visualEvent (scene description : FieldVal)
  | audioEvent (track volume : FieldVal)
  | clarityInsight (insight score : FieldVal)
deriving DecidableEq, Repr

/-- The body of a rendered properties panel: the dynamic title, the
General section (id-or-N/A, category badge, formatted time range,
formatted duration), and the category-specific section. -/
structure PanelBody where
  displayTitle : String
  idText : String
  typeBadge : ElementType
  timeText : String
  durationText : String
  specific : SpecificView
deriving DecidableEq, Repr

/-- A rendered properties panel: either the placeholder prompt shown when
no element is selected, or the full panel. -/
inductive PanelView
  | placeholder (message : String)
  | panel (body : PanelBody)
deriving DecidableEq, Repr

/-- The specific section of a rendered panel, if it is not the
placeholder. -/
def specificOf : PanelView → Option SpecificView
  | .placeholder _ => none
  | .panel b => some b.specific

/-- Embedding of the `PropertiesPanel` component
(`PropertiesPanel.tsx`): with no category it returns the placeholder
prompt; otherwise it renders the General section from the selection (with
a falsy-or fallback to N/A on the id and to 0 on the time bounds, and the duration the
formatted difference end minus start) plus the category-specific
fields selected by the switch on the type. -/
def renderPropertiesPanel (sel : SelectedElement) : PanelView :=
  match sel.type with
  | none => .placeholder "Select an element on the timeline to view its properties."
  | some t =>
    .panel
      { displayTitle :=
          match t with
          | .narrative => "Narrative Beat"
          | .visual => "Visual Event"
          | .audio => "Audio Event"
          | .clarity => "Clarity Insight"
        idText :=
          match sel.id with
          | none => "N/A"
          | some s => if s = "" then "N/A" else s
        typeBadge := t
        timeText :=
          formatTime (sel.timeStart.getD 0) ++ " - " ++
            formatTime (sel.timeEnd.getD 0)
        durationText :=
          formatTime (sel.timeEnd.getD 0 - sel.timeStart.getD 0)
        specific :=
          match t with
          | .narrative =>
              .narrativeBeat (rawStrField (sel.data.bind (·.text)))
                (numFalsyOrNA (sel.data.bind (·.score)))
          | .visual =>
              .visualEvent (rawStrField (sel.data.bind (·.scene)))
                (strFalsyOrNA (sel.data.bind (·.description)))
          | .audio =>
              .audioEvent (rawStrField (sel.data.bind (·.title)))
                (volumeFieldVal (sel.data.bind (·.volume)))
          | .clarity =>
              .clarityInsight (rawStrField (sel.data.bind (·.text)))
                (numFalsyOrNA (sel.data.bind (·.score))) }

/-- C9: the panel render is a pure function of the selection.  A
selection without a category renders the placeholder prompt; any
selection with a category renders a panel whose common section shows the
id (or N/A when the id is absent or empty), the category badge, the
formatted start and end times, and a duration computed as end minus
start — with missing bounds defaulted to 0 and no validation, so the
duration argument is negative whenever start exceeds end. -/
theorem renderPropertiesPanel_spec (sel : SelectedElement) :
    (sel.type = none →
        renderPropertiesPanel sel =
          .placeholder "Select an element on the timeline to view its properties.") ∧
      (∀ t, sel.type = some t →
        ∃ b, renderPropertiesPanel sel = .panel b ∧
          b.typeBadge = t ∧
          (sel.id = none → b.idText = "N/A") ∧
          (∀ s, sel.id = some s → s ≠ "" → b.idText = s) ∧
          b.timeText =
            formatTime (sel.timeStart.getD 0) ++ " - " ++
              formatTime (sel.timeEnd.getD 0) ∧
          b.durationText =
            formatTime (sel.timeEnd.getD 0 - sel.timeStart.getD 0) ∧
          (∀ a z, sel.timeStart = some a → sel.timeEnd = some z → z < a →
            sel.timeEnd.getD 0 - sel.timeStart.getD 0 < 0)) := by
  constructor
  · intro h
    unfold renderPropertiesPanel
    rw [h]
  · intro t h
    refine ⟨_, by unfold renderPropertiesPanel; rw [h], rfl, ?_, ?_, rfl, rfl, ?_⟩
    · intro hid
      simp [hid]
    · intro s hid hs
      simp [hid, hs]
    · intro a z ha hz hlt
      rw [ha, hz]
      simp only [Option.getD_some]
      linarith

/-- Witness for C9 at concrete selections: a selection with no category
renders the placeholder, and a clarity selection with id c2 running from
second 32 to second 34 renders a panel showing id c2, the clarity badge,
the 0:32 to 0:34 time range and duration 0:02; a selection with start 10
and end 4 gets the negative duration argument -6. -/
theorem renderPropertiesPanel_spec_witness :
    renderPropertiesPanel ⟨none, none, none, none, none⟩ =
        .placeholder "Select an element on the timeline to view its properties." ∧
      (∃ b, renderPropertiesPanel
            ⟨some .clarity, some "c2", some 32, some 34, none⟩ = .panel b ∧
          b.typeBadge = .clarity ∧ b.idText = "c2" ∧
          b.timeText = "0:32 - 0:34" ∧ b.durationText = "0:02") ∧
      ((⟨some .visual, some "v9", some 10, some 4, none⟩ :
          SelectedElement).timeEnd.getD 0 -
        (⟨some .visual, some "v9", some 10, some 4, none⟩ :
          SelectedElement).timeStart.getD 0) < 0 := by
  refine ⟨(renderPropertiesPanel_spec ⟨none, none, none, none, none⟩).1 rfl,
    ?_, ?_⟩
  · obtain ⟨b, hb, hbadge, -, hid, htime, hdur, -⟩ :=
      (renderPropertiesPanel_spec
        ⟨some .clarity, some "c2", some 32, some 34, none⟩).2 .clarity rfl
    refine ⟨b, hb, hbadge, hid "c2" rfl (by decide), ?_, ?_⟩
    · rw [htime]
      norm_num [formatTime, jsRem, ratTrunc, padTwo]
      decide
    · rw [hdur]
      norm_num [formatTime, jsRem, ratTrunc, padTwo]
      decide
  · obtain ⟨-, -, -, -, -, -, -, hneg⟩ :=
      (renderPropertiesPanel_spec
        ⟨some .visual, some "v9", some 10, some 4, none⟩).2 .visual rfl
    exact hneg 10 4 rfl rfl (by norm_num)

/-- C10: the two field-absent fallbacks are inequivalent at zero.  A
narrative or clarity selection whose score is 0 renders N/A for the Score
field — exactly what a selection with no score at all renders, so a
genuine zero score is indistinguishable from a missing one — while an
audio selection whose volume is 0 renders the percentage 0 (the string
0 percent), which is distinct from the N/A rendered when the volume is
absent. -/
theorem score_zero_vs_volume_zero_fallback :
    specificOf (renderPropertiesPanel
        ⟨some .narrative, some "n1", some 0, some 5,
          some ⟨some "hook", some 0, none, none, none, none⟩⟩) =
      some (.narrativeBeat (.str "hook") .na) ∧
    specificOf (renderPropertiesPanel
        ⟨some .narrative, some "n1", some 0, some 5,
          some ⟨some "hook", none, none, none, none, none⟩⟩) =
      some (.narrativeBeat (.str "hook") .na) ∧
    specificOf (renderPropertiesPanel
        ⟨some .clarity, some "c1", some 0, some 5,
          some ⟨some "insight", some 0, none, none, none, none⟩⟩) =
      some (.clarityInsight (.str "insight") .na) ∧
    specificOf (renderPropertiesPanel
        ⟨some .audio, some "a1", some 0, some 5,
          some ⟨none, none, none, none, some "Background Music", some 0⟩⟩) =
      some (.audioEvent (.str "Background Music") (.percent 0)) ∧
    specificOf (renderPropertiesPanel
        ⟨some .audio, some "a1", some 0, some 5,
          some ⟨none, none, none, none, some "Background Music", none⟩⟩) =
      some (.audioEvent (.str "Background Music") .na) ∧
    FieldVal.percent 0 ≠ FieldVal.na := by
  refine ⟨?_, ?_, ?_, ?_, ?_, by decide⟩ <;>
    norm_num [renderPropertiesPanel, specificOf, rawStrField, numFalsyOrNA,
      volumeFieldVal]

end Helixar
